import Mathlib

/-
Shallow embedding of `GenericSharedMemoryModel.hpp` (template class
GenericSharedMemoryModel<T>).

The C++ class manages a connection to a named shared-memory segment.  Its
member state is modelled by `Model`; the OS-visible state (the namespace of
shared-memory objects, the open file descriptors / handles of this process,
and the active memory mappings of this process) is modelled by `World`.
Values of the template parameter `T` are modelled by their byte
representation (a `List Nat` of length `sizeof(T)`), since the byte
representation is the entire cross-process contract.  OS calls that can fail
nondeterministically (shm_open / CreateFileMappingA, fstat, ftruncate,
mmap / MapViewOfFile) are resolved by an outcome record passed to `connect`.
Every OS call an operation makes is recorded, in order, in an event trace.

Uninitialised C++ members (the `data` pointer and the handle before the
first `connect`) are modelled as `none` / `-1`.
-/

/-- One OS-level call made by the class, recorded in the order the code
performs them. -/
inductive Event where
  | shmOpenEv (name : String) (ok : Bool)
  | fstatEv (ok : Bool) (size : Nat)
  | ftruncateEv (newSize : Nat) (ok : Bool)
  | mmapEv (size : Nat) (ok : Bool)
  | munmapEv (ptr : Nat) (size : Nat)
  | closeEv (fd : Int)
  | createFileMappingEv (name : String) (ok : Bool)
  | mapViewOfFileEv (size : Nat) (ok : Bool)
  deriving Repr, DecidableEq

/-- Association-list lookup keyed on the first component. -/
def alookup {α β : Type} [DecidableEq α] : List (α × β) → α → Option β
  | [], _ => none
  | e :: t, k => if e.1 = k then some e.2 else alookup t k

/-- Remove every binding of a key from an association list. -/
def aerase {α β : Type} [DecidableEq α] : List (α × β) → α → List (α × β)
  | [], _ => []
  | e :: t, k => if e.1 = k then aerase t k else e :: aerase t k

/-- Overwrite the binding of a key in an association list. -/
def astore {α β : Type} [DecidableEq α] (l : List (α × β)) (k : α) (v : β) :
    List (α × β) :=
  (k, v) :: aerase l k

/-- OS-visible state: the shared-memory object namespace (name to byte
contents), the open descriptors of this process (fd to the object it
refers to), and the active mappings of this process (address to the object
mapped there).  `nextFd` / `nextPtr` supply fresh descriptors and
addresses. -/
structure World where
  segments : List (String × List Nat)
  openFds : List (Int × String)
  mappings : List (Nat × String)
  nextFd : Int
  nextPtr : Nat
  deriving Repr, DecidableEq

/-- The member state of one `GenericSharedMemoryModel<T>` instance, with the
member names of the C++ class.  `data` is the public mapped pointer
(`T* data`), `none` while no defined pointer value has been stored. -/
structure Model where
  m_name : String
  m_is_connected : Bool
  m_log_warnings : Bool
  data : Option Nat
  m_file_mapping_handle : Int
  deriving Repr, DecidableEq

/-- The constructor: stores the name and the logging flag and sets
`m_is_connected = false`; it performs no OS interaction.  The C++ code
leaves `data` and the handle uninitialised; they are modelled as `none`
and `-1`. -/
def mkModel (name : String) (log_warnings : Bool) : Model :=
  { m_name := name,
    m_is_connected := false,
    m_log_warnings := log_warnings,
    data := none,
    m_file_mapping_handle := -1 }

/-- Outcomes of the fallible OS calls on the POSIX path of `connect`. -/
structure OsOutcome where
  shmOpenOk : Bool
  fstatOk : Bool
  ftruncateOk : Bool
  mmapOk : Bool
  deriving Repr, DecidableEq

/-- Outcomes of the fallible OS calls on the Windows path of `connect`. -/
structure WinOutcome where
  createFileMappingOk : Bool
  mapViewOk : Bool
  deriving Repr, DecidableEq

/-- Result of a `connect` call: the updated member state, the updated OS
state, the boolean return value, and the trace of OS calls made. -/
structure ConnectResult where
  model : Model
  world : World
  ret : Bool
  events : List Event
  deriving Repr, DecidableEq

/-- Result of a `disconnect` (or destructor) call. -/
structure DisconnectResult where
  model : Model
  world : World
  ret : Bool
  events : List Event
  deriving Repr, DecidableEq

/-- The effect of `ftruncate(fd, n)` on the byte contents of an object:
the contents are cut or zero-extended to length `n`. -/
def truncBytes (bs : List Nat) (n : Nat) : List Nat :=
  bs.take n ++ List.replicate (n - bs.length) 0

/-- The segment namespace after `shm_open(name, O_CREAT | O_RDWR, 0666)`
succeeds: a zero-length object is created when none exists. -/
def segsAfterOpen (w : World) (name : String) : List (String × List Nat) :=
  match alookup w.segments name with
  | some _ => w.segments
  | none => astore w.segments name []

/-- The size `fstat` reports for the object right after a successful
`shm_open` of `name`. -/
def observedSize (w : World) (name : String) : Nat :=
  ((alookup (segsAfterOpen w name) name).getD []).length

/-- The tail of `connect` shared by both branches of the POSIX path:
`data = (T *) mmap(NULL, sizeof(T), PROT_READ | PROT_WRITE, MAP_SHARED,
m_file_mapping_handle, 0)`.  On `MAP_FAILED` the code sets
`m_is_connected = false` and returns `false` WITHOUT closing the file
descriptor (lines 212-219 of the header); on success it stores the mapping
pointer, sets `m_is_connected = true` and falls through to
`return m_is_connected`. -/
def mmapStep (sizeofT : Nat) (mmapOk : Bool) (m : Model) (w : World)
    (evs : List Event) : ConnectResult :=
  if mmapOk = false then
    { model := { m with data := none, m_is_connected := false },
      world := w,
      ret := false,
      events := evs ++ [Event.mmapEv sizeofT false] }
  else
    { model := { m with data := some w.nextPtr, m_is_connected := true },
      world := { w with
                   mappings := astore w.mappings w.nextPtr m.m_name,
                   nextPtr := w.nextPtr + 1 },
      ret := true,
      events := evs ++ [Event.mmapEv sizeofT true] }

/-- The POSIX (`#else`) branch of `GenericSharedMemoryModel<T>::connect()`,
lines 126-228 of the header.  If already connected it immediately returns
`m_is_connected`.  Otherwise: `shm_open` with `O_CREAT | O_RDWR`; on failure
set `m_is_connected = false` and return `false`.  Then
`fstat(m_file_mapping_handle, &mapping_stat) != -1 && mapping_stat.st_size == 0`
guards an `ftruncate(m_file_mapping_handle, sizeof(T))`; `ftruncate` failure
sets `m_is_connected = false` and returns `false`.  Finally `mmap`
(see `mmapStep`). -/
def connectPosix (sizeofT : Nat) (os : OsOutcome) (m : Model) (w : World) :
    ConnectResult :=
  if m.m_is_connected then
    { model := m, world := w, ret := m.m_is_connected, events := [] }
  else
    if os.shmOpenOk = false then
      { model := { m with m_file_mapping_handle := -1, m_is_connected := false },
        world := w,
        ret := false,
        events := [Event.shmOpenEv m.m_name false] }
    else
      let fd := w.nextFd
      let w1 : World :=
        { w with
            segments := segsAfterOpen w m.m_name,
            openFds := astore w.openFds fd m.m_name,
            nextFd := w.nextFd + 1 }
      let m1 := { m with m_file_mapping_handle := fd }
      let obs := observedSize w m.m_name
      if os.fstatOk && obs == 0 then
        if os.ftruncateOk = false then
          { model := { m1 with m_is_connected := false },
            world := w1,
            ret := false,
            events := [Event.shmOpenEv m.m_name true, Event.fstatEv true obs,
                       Event.ftruncateEv sizeofT false] }
        else
          let w2 : World :=
            { w1 with
                segments :=
                  astore w1.segments m.m_name
                    (truncBytes ((alookup w1.segments m.m_name).getD []) sizeofT) }
          mmapStep sizeofT os.mmapOk m1 w2
            [Event.shmOpenEv m.m_name true, Event.fstatEv true obs,
             Event.ftruncateEv sizeofT true]
      else
        mmapStep sizeofT os.mmapOk m1 w1
          [Event.shmOpenEv m.m_name true, Event.fstatEv os.fstatOk obs]

/-- The Windows (`#ifdef _WIN32`) branch of
`GenericSharedMemoryModel<T>::connect()`, lines 133-177 of the header.
`CreateFileMappingA(INVALID_HANDLE_VALUE, NULL, PAGE_READWRITE, 0,
sizeof(T), m_name.c_str())` creates (or opens) a pagefile-backed object of
size `sizeof(T)`; on `NULL` handle set `m_is_connected = false` and return
`false`.  Then `MapViewOfFile`; on `NULL` the code calls
`CloseHandle(m_file_mapping_handle)`, sets `m_is_connected = false` and
returns `false`; on success it stores the pointer, sets
`m_is_connected = true` and returns `m_is_connected`. -/
def connectWin (sizeofT : Nat) (os : WinOutcome) (m : Model) (w : World) :
    ConnectResult :=
  if m.m_is_connected then
    { model := m, world := w, ret := m.m_is_connected, events := [] }
  else
    if os.createFileMappingOk = false then
      { model := { m with m_is_connected := false },
        world := w,
        ret := false,
        events := [Event.createFileMappingEv m.m_name false] }
    else
      let fd := w.nextFd
      let w1 : World :=
        { w with
            segments :=
              match alookup w.segments m.m_name with
              | some _ => w.segments
              | none => astore w.segments m.m_name (List.replicate sizeofT 0),
            openFds := astore w.openFds fd m.m_name,
            nextFd := w.nextFd + 1 }
      let m1 := { m with m_file_mapping_handle := fd }
      if os.mapViewOk = false then
        { model := { m1 with data := none, m_is_connected := false },
          world := { w1 with openFds := aerase w1.openFds fd },
          ret := false,
          events := [Event.createFileMappingEv m.m_name true,
                     Event.mapViewOfFileEv sizeofT false, Event.closeEv fd] }
      else
        { model := { m1 with data := some w1.nextPtr, m_is_connected := true },
          world := { w1 with
                       mappings := astore w1.mappings w1.nextPtr m.m_name,
                       nextPtr := w1.nextPtr + 1 },
          ret := true,
          events := [Event.createFileMappingEv m.m_name true,
                     Event.mapViewOfFileEv sizeofT true] }

/-- `GenericSharedMemoryModel<T>::disconnect()`, lines 231-249 of the
header (both platform branches have the same shape: unmap the view, close
the handle, set `m_is_connected = false`).  When not connected nothing is
done.  Either way it returns `true`.  Note the code never assigns to the
`data` member here. -/
def disconnect (sizeofT : Nat) (m : Model) (w : World) : DisconnectResult :=
  if m.m_is_connected then
    let p := m.data.getD 0
    { model := { m with m_is_connected := false },
      world := { w with
                   mappings := aerase w.mappings p,
                   openFds := aerase w.openFds m.m_file_mapping_handle },
      ret := true,
      events := [Event.munmapEv p sizeofT, Event.closeEv m.m_file_mapping_handle] }
  else
    { model := m, world := w, ret := true, events := [] }

/-- The destructor, lines 54-57 of the header: it calls `disconnect()`
unconditionally (the boolean result is discarded). -/
def destructor (sizeofT : Nat) (m : Model) (w : World) : DisconnectResult :=
  disconnect sizeofT m w

/-- `is_connected()`: returns `m_is_connected` (under the member mutex). -/
def is_connected (m : Model) : Bool :=
  m.m_is_connected

/-- `get_data()`: `return *data;` — copies the `sizeof(T)` bytes the stored
pointer maps to.  Dereferencing is only defined when the pointer maps an
existing object; otherwise the model yields `none` (the C++ behaviour is an
undefined dereference). -/
def get_data (sizeofT : Nat) (m : Model) (w : World) : Option (List Nat) :=
  match m.data with
  | none => none
  | some p =>
    match alookup w.mappings p with
    | none => none
    | some name =>
      match alookup w.segments name with
      | none => none
      | some bs => some (bs.take sizeofT)

/-- `write_data(new_data)`: `memcpy(data, &new_data, sizeof(T));` — copies
the `sizeof(T)` bytes of the argument over the start of the mapped object.
When the pointer maps no existing object the model leaves the world
unchanged (the C++ behaviour is an undefined dereference). -/
def write_data (sizeofT : Nat) (m : Model) (w : World) (new_data : List Nat) :
    World :=
  match m.data with
  | none => w
  | some p =>
    match alookup w.mappings p with
    | none => w
    | some name =>
      match alookup w.segments name with
      | none => w
      | some bs =>
        { w with segments :=
            astore w.segments name (new_data.take sizeofT ++ bs.drop sizeofT) }

/-- Layout of a trivially-copyable C type `T`: a scalar of a given byte
width, or a struct laid out as the concatenation of two parts.  A struct
with several or nested fields is a right-nested tree of `prodTy`, e.g. the
test type `{int32, float64, {int32, float64}}` is
`prodTy (scalarTy 4) (prodTy (scalarTy 8) (prodTy (scalarTy 4) (scalarTy 8)))`. -/
inductive CTy where
  | scalarTy (width : Nat)
  | prodTy (a b : CTy)
  deriving Repr, DecidableEq

/-- A value of a trivially-copyable C type: scalar fields carry their bit
pattern as a natural number. -/
inductive CVal where
  | scalar (width : Nat) (val : Nat)
  | prodV (a b : CVal)
  deriving Repr, DecidableEq

/-- Little-endian byte representation of a scalar, exactly `width` bytes. -/
def bytesOfNat : Nat → Nat → List Nat
  | 0, _ => []
  | n + 1, val => (val % 256) :: bytesOfNat n (val / 256)

/-- Scalar value of a little-endian byte string. -/
def natOfBytes : List Nat → Nat
  | [] => 0
  | b :: bs => b + 256 * natOfBytes bs

/-- The in-memory byte representation of a value: fields are laid out in
order (what `memcpy(data, &new_data, sizeof(T))` transfers). -/
def encodeVal : CVal → List Nat
  | .scalar width val => bytesOfNat width val
  | .prodV a b => encodeVal a ++ encodeVal b

/-- The modelled `sizeof(T)`. -/
def sizeOfTy : CTy → Nat
  | .scalarTy w => w
  | .prodTy a b => sizeOfTy a + sizeOfTy b

/-- Reading a byte snapshot back as a value of a given type (how a second
process interprets the shared bytes as `T`).  Returns the decoded value and
the remaining bytes. -/
def decodeVal : CTy → List Nat → Option (CVal × List Nat)
  | .scalarTy w, bs =>
    if w ≤ bs.length then
      some (.scalar w (natOfBytes (bs.take w)), bs.drop w)
    else none
  | .prodTy a b, bs =>
    match decodeVal a bs with
    | none => none
    | some (va, bs1) =>
      match decodeVal b bs1 with
      | none => none
      | some (vb, bs2) => some (.prodV va vb, bs2)

/-- A value fits a type: the layout matches and each scalar fits its
width. -/
def wellTyped : CTy → CVal → Bool
  | .scalarTy w, .scalar w2 val => w == w2 && decide (val < 256 ^ w)
  | .prodTy a b, .prodV x y => wellTyped a x && wellTyped b y
  | .scalarTy _, .prodV _ _ => false
  | .prodTy _ _, .scalar _ _ => false

theorem bytesOfNat_length (width val : Nat) :
    (bytesOfNat width val).length = width := by
  induction width generalizing val with
  | zero => rfl
  | succ n ih => simp [bytesOfNat, ih]

theorem natOfBytes_bytesOfNat (width val : Nat) (h : val < 256 ^ width) :
    natOfBytes (bytesOfNat width val) = val := by
  induction width generalizing val with
  | zero =>
    simp only [pow_zero, Nat.lt_one_iff] at h
    simp [h, bytesOfNat, natOfBytes]
  | succ n ih =>
    have hdiv : val / 256 < 256 ^ n := by
      apply Nat.div_lt_of_lt_mul
      calc val < 256 ^ (n + 1) := h
        _ = 256 * 256 ^ n := by ring
    simp only [bytesOfNat, natOfBytes, ih (val / 256) hdiv]
    exact Nat.mod_add_div val 256

theorem encodeVal_length (t : CTy) (v : CVal) (h : wellTyped t v = true) :
    (encodeVal v).length = sizeOfTy t := by
  induction t generalizing v with
  | scalarTy w =>
    cases v with
    | scalar w2 val =>
      simp only [wellTyped, Bool.and_eq_true, beq_iff_eq] at h
      simp [encodeVal, sizeOfTy, bytesOfNat_length, h.1]
    | prodV a b => simp [wellTyped] at h
  | prodTy a b iha ihb =>
    cases v with
    | scalar w2 val => simp [wellTyped] at h
    | prodV x y =>
      simp only [wellTyped, Bool.and_eq_true] at h
      simp [encodeVal, sizeOfTy, iha x h.1, ihb y h.2]

theorem decodeVal_encodeVal (t : CTy) (v : CVal) (rest : List Nat)
    (h : wellTyped t v = true) :
    decodeVal t (encodeVal v ++ rest) = some (v, rest) := by
  induction t generalizing v rest with
  | scalarTy w =>
    cases v with
    | scalar w2 val =>
      simp only [wellTyped, Bool.and_eq_true, beq_iff_eq,
        decide_eq_true_eq] at h
      obtain ⟨hw, hval⟩ := h
      subst hw
      have hlen : (bytesOfNat w val).length = w := bytesOfNat_length w val
      simp only [encodeVal, decodeVal, List.length_append, hlen,
        Nat.le_add_right, if_pos, List.take_left' hlen, List.drop_left' hlen,
        natOfBytes_bytesOfNat w val hval]
    | prodV a b => simp [wellTyped] at h
  | prodTy a b iha ihb =>
    cases v with
    | scalar w2 val => simp [wellTyped] at h
    | prodV x y =>
      simp only [wellTyped, Bool.and_eq_true] at h
      simp [encodeVal, decodeVal, List.append_assoc, iha x _ h.1, ihb y rest h.2]

theorem alookup_aerase {α β : Type} [DecidableEq α] (l : List (α × β))
    (k : α) : alookup (aerase l k) k = none := by
  induction l with
  | nil => rfl
  | cons e t ih =>
    by_cases h : e.1 = k
    · simp [aerase, h, ih]
    · simp [aerase, alookup, h, ih]

theorem alookup_aerase_ne {α β : Type} [DecidableEq α] (l : List (α × β))
    (k k' : α) (h : k' ≠ k) : alookup (aerase l k) k' = alookup l k' := by
  induction l with
  | nil => rfl
  | cons e t ih =>
    by_cases he : e.1 = k
    · have h1 : ¬ e.1 = k' := by
        intro hk; exact h (hk ▸ he ▸ rfl)
      have h2 : ¬ k = k' := fun hk => h hk.symm
      simp [aerase, alookup, he, h1, h2, ih]
    · simp only [aerase, if_neg he, alookup]
      by_cases he' : e.1 = k'
      · simp [he']
      · simp [he', ih]

theorem alookup_astore_self {α β : Type} [DecidableEq α] (l : List (α × β))
    (k : α) (v : β) : alookup (astore l k v) k = some v := by
  simp [astore, alookup]

theorem alookup_astore_ne {α β : Type} [DecidableEq α] (l : List (α × β))
    (k k' : α) (v : β) (h : k' ≠ k) :
    alookup (astore l k v) k' = alookup l k' := by
  have : ¬ k = k' := fun hk => h hk.symm
  simp [astore, alookup, this, alookup_aerase_ne l k k' h]

/-- The stored mapped region is valid: the `data` pointer holds a defined
value that refers to an active mapping of this process. -/
def validMapping (m : Model) (w : World) : Prop :=
  ∃ p, m.data = some p ∧ (alookup w.mappings p).isSome = true

/-- One public operation on an instance; the outcomes of the fallible OS
calls a `connect` makes are supplied as input. -/
inductive Op where
  | connectP (sizeofT : Nat) (os : OsOutcome)
  | connectW (sizeofT : Nat) (os : WinOutcome)
  | disconnectOp (sizeofT : Nat)
  | writeOp (sizeofT : Nat) (v : List Nat)
  | readOp

/-- Execute one operation on the pair (member state, OS state). -/
def stepOp : Op → Model × World → Model × World
  | .connectP sz os, (m, w) =>
    ((connectPosix sz os m w).model, (connectPosix sz os m w).world)
  | .connectW sz os, (m, w) =>
    ((connectWin sz os m w).model, (connectWin sz os m w).world)
  | .disconnectOp sz, (m, w) =>
    ((disconnect sz m w).model, (disconnect sz m w).world)
  | .writeOp sz v, (m, w) => (m, write_data sz m w v)
  | .readOp, (m, w) => (m, w)

/-- Execute a sequence of operations. -/
def runOps (ops : List Op) (s : Model × World) : Model × World :=
  ops.foldl (fun s op => stepOp op s) s

/-- The section-3 invariant: the mapped region is valid exactly when the
connection state is `Connected`. -/
def connInv (s : Model × World) : Prop :=
  s.1.m_is_connected = true ↔ validMapping s.1 s.2

theorem validMapping_congr (m m' : Model) (w w' : World)
    (hd : m'.data = m.data) (hm : w'.mappings = w.mappings) :
    validMapping m' w' ↔ validMapping m w := by
  simp [validMapping, hd, hm]

theorem connInv_of_disconnected (m : Model) (w : World)
    (hc : m.m_is_connected = false) (hnv : ¬ validMapping m w) :
    connInv (m, w) := by
  simp [connInv, hc]
  exact hnv

theorem connInv_mmapStep (sz : Nat) (ok : Bool) (m : Model) (w : World)
    (evs : List Event) :
    connInv ((mmapStep sz ok m w evs).model, (mmapStep sz ok m w evs).world) := by
  by_cases h : ok = false
  · simp [mmapStep, h, connInv, validMapping]
  · simp [mmapStep, h, connInv, validMapping, alookup_astore_self]

theorem write_data_mappings (sz : Nat) (m : Model) (w : World) (v : List Nat) :
    (write_data sz m w v).mappings = w.mappings := by
  unfold write_data
  cases m.data with
  | none => rfl
  | some p =>
    cases h1 : alookup w.mappings p with
    | none => simp [h1]
    | some name =>
      cases h2 : alookup w.segments name with
      | none => simp [h1, h2]
      | some bs => simp [h1, h2]

theorem connInv_connectPosix (sz : Nat) (os : OsOutcome) (m : Model)
    (w : World) (h : connInv (m, w)) :
    connInv ((connectPosix sz os m w).model, (connectPosix sz os m w).world) := by
  by_cases hc : m.m_is_connected = true
  · simpa [connectPosix, hc] using h
  · have hcf : m.m_is_connected = false := by
      revert hc; cases m.m_is_connected <;> simp
    have hnv : ¬ validMapping m w := fun hv => hc (h.mpr hv)
    obtain ⟨so, fo, tr, mo⟩ := os
    cases so with
    | false =>
      simp only [connectPosix, hcf, Bool.false_eq_true, if_false]
      exact connInv_of_disconnected _ _ rfl
        (fun hv => hnv ((validMapping_congr m _ w w rfl rfl).mp hv))
    | true =>
      by_cases hobs : observedSize w m.m_name = 0
      · cases tr with
        | false =>
          cases fo with
          | false =>
            simp [connectPosix, hcf, hobs]
            exact connInv_mmapStep _ _ _ _ _
          | true =>
            simp [connectPosix, hcf, hobs]
            exact connInv_of_disconnected _ _ rfl
              (fun hv => hnv ((validMapping_congr m _ w _ rfl rfl).mp hv))
        | true =>
          cases fo with
          | false =>
            simp [connectPosix, hcf, hobs]
            exact connInv_mmapStep _ _ _ _ _
          | true =>
            simp [connectPosix, hcf, hobs]
            exact connInv_mmapStep _ _ _ _ _
      · simp [connectPosix, hcf, hobs]
        exact connInv_mmapStep _ _ _ _ _

theorem connInv_connectWin (sz : Nat) (os : WinOutcome) (m : Model)
    (w : World) (h : connInv (m, w)) :
    connInv ((connectWin sz os m w).model, (connectWin sz os m w).world) := by
  by_cases hc : m.m_is_connected = true
  · simpa [connectWin, hc] using h
  · have hcf : m.m_is_connected = false := by
      revert hc; cases m.m_is_connected <;> simp
    have hnv : ¬ validMapping m w := fun hv => hc (h.mpr hv)
    obtain ⟨co, vo⟩ := os
    cases co with
    | false =>
      simp only [connectWin, hcf, Bool.false_eq_true, if_false]
      exact connInv_of_disconnected _ _ rfl
        (fun hv => hnv ((validMapping_congr m _ w w rfl rfl).mp hv))
    | true =>
      cases vo with
      | false =>
        simp [connectWin, hcf, connInv, validMapping]
      | true =>
        simp [connectWin, hcf, connInv, validMapping, alookup_astore_self]

theorem connInv_disconnect (sz : Nat) (m : Model) (w : World)
    (h : connInv (m, w)) :
    connInv ((disconnect sz m w).model, (disconnect sz m w).world) := by
  by_cases hc : m.m_is_connected = true
  · obtain ⟨p, hp, hl⟩ := h.mp hc
    have hp' : m.data = some p := hp
    simp only [disconnect, hc, if_true]
    apply connInv_of_disconnected _ _ rfl
    rintro ⟨q, hq, hlq⟩
    have hq' : m.data = some q := hq
    rw [hp'] at hq'
    have hqp : q = p := by injection hq' with h2; exact h2.symm
    subst hqp
    simp [hp', alookup_aerase] at hlq
  · have hcf : m.m_is_connected = false := by
      revert hc; cases m.m_is_connected <;> simp
    simpa [disconnect, hcf] using h

theorem connInv_stepOp (op : Op) (s : Model × World) (h : connInv s) :
    connInv (stepOp op s) := by
  obtain ⟨m, w⟩ := s
  cases op with
  | connectP sz os => exact connInv_connectPosix sz os m w h
  | connectW sz os => exact connInv_connectWin sz os m w h
  | disconnectOp sz => exact connInv_disconnect sz m w h
  | writeOp sz v =>
    show m.m_is_connected = true ↔ validMapping m (write_data sz m w v)
    rw [validMapping_congr m m w (write_data sz m w v) rfl
      (write_data_mappings sz m w v)]
    exact h
  | readOp => exact h

theorem connInv_runOps (ops : List Op) (s : Model × World) (h : connInv s) :
    connInv (runOps ops s) := by
  induction ops generalizing s with
  | nil => exact h
  | cons op t ih => exact ih (stepOp op s) (connInv_stepOp op s h)

/-- A freshly constructed (never connected) instance bound to the name
"counter" from the spec scenario. -/
def mDis : Model := mkModel "counter" false

/-- A connected instance: pointer 100 maps the object named "counter",
held through descriptor 3. -/
def mCon : Model :=
  { m_name := "counter",
    m_is_connected := true,
    m_log_warnings := false,
    data := some 100,
    m_file_mapping_handle := 3 }

/-- An OS state matching `mCon`: the object "counter" holds the four bytes
of the int32 value 42. -/
def wCon : World :=
  { segments := [("counter", [42, 0, 0, 0])],
    openFds := [(3, "counter")],
    mappings := [(100, "counter")],
    nextFd := 4,
    nextPtr := 101 }

/-- An OS state with no objects, descriptors or mappings. -/
def wEmpty : World :=
  { segments := [], openFds := [], mappings := [], nextFd := 3, nextPtr := 100 }

/-- Every OS call succeeds (POSIX). -/
def osAllOk : OsOutcome :=
  { shmOpenOk := true, fstatOk := true, ftruncateOk := true, mmapOk := true }

/-- shm_open fails. -/
def osOpenFail : OsOutcome :=
  { shmOpenOk := false, fstatOk := true, ftruncateOk := true, mmapOk := true }

/-- fstat fails, everything else succeeds. -/
def osFstatFail : OsOutcome :=
  { shmOpenOk := true, fstatOk := false, ftruncateOk := true, mmapOk := true }

/-- mmap fails, everything before it succeeds. -/
def osMmapFail : OsOutcome :=
  { shmOpenOk := true, fstatOk := true, ftruncateOk := true, mmapOk := false }

/-- Every OS call succeeds (Windows). -/
def winAllOk : WinOutcome := { createFileMappingOk := true, mapViewOk := true }

/-- CreateFileMappingA fails. -/
def winCreateFail : WinOutcome :=
  { createFileMappingOk := false, mapViewOk := true }

/-- MapViewOfFile fails. -/
def winMapFail : WinOutcome :=
  { createFileMappingOk := true, mapViewOk := false }

/-- C2: if an instance is already in the Connected state, `connect()` (on
either platform path) returns `true` immediately, makes no OS call (empty
event trace, so no OS resource is re-acquired), leaves the member state —
including the stored mapped pointer `data` — unchanged, and leaves the OS
state — including every segment's contents, so all data already written —
unchanged. -/
theorem c2_connect_idempotent (szP szW : Nat) (os : OsOutcome)
    (wos : WinOutcome) (m : Model) (w : World) (h : m.m_is_connected = true) :
    connectPosix szP os m w = ⟨m, w, true, []⟩ ∧
    connectWin szW wos m w = ⟨m, w, true, []⟩ := by
  constructor <;> simp [connectPosix, connectWin, h]

theorem c2_connect_idempotent_witness :
    connectPosix 4 osAllOk mCon wCon = ⟨mCon, wCon, true, []⟩ ∧
    connectWin 4 winAllOk mCon wCon = ⟨mCon, wCon, true, []⟩ :=
  c2_connect_idempotent 4 4 osAllOk winAllOk mCon wCon rfl

/-- C6: on every instance whose state is Disconnected (never connected, or
already disconnected), `disconnect()` takes no action (member and OS state
unchanged, no OS call), returns `true`, and the state stays
Disconnected. -/
theorem c6_disconnect_noop (sz : Nat) (m : Model) (w : World)
    (h : m.m_is_connected = false) :
    disconnect sz m w = ⟨m, w, true, []⟩ := by
  simp [disconnect, h]

theorem c6_disconnect_noop_witness :
    disconnect 4 mDis wEmpty = ⟨mDis, wEmpty, true, []⟩ :=
  c6_disconnect_noop 4 mDis wEmpty rfl

theorem connectPosix_connected_eq_ret (sz : Nat) (os : OsOutcome) (m : Model)
    (w : World) :
    (connectPosix sz os m w).model.m_is_connected = (connectPosix sz os m w).ret := by
  by_cases hc : m.m_is_connected = true
  · simp [connectPosix, hc]
  · have hcf : m.m_is_connected = false := by
      revert hc; cases m.m_is_connected <;> simp
    obtain ⟨so, fo, tr, mo⟩ := os
    by_cases hobs : observedSize w m.m_name = 0 <;>
      cases so <;> cases fo <;> cases tr <;> cases mo <;>
        simp [connectPosix, mmapStep, hcf, hobs]

theorem connectWin_connected_eq_ret (sz : Nat) (os : WinOutcome) (m : Model)
    (w : World) :
    (connectWin sz os m w).model.m_is_connected = (connectWin sz os m w).ret := by
  by_cases hc : m.m_is_connected = true
  · simp [connectWin, hc]
  · have hcf : m.m_is_connected = false := by
      revert hc; cases m.m_is_connected <;> simp
    obtain ⟨co, vo⟩ := os
    cases co <;> cases vo <;> simp [connectWin, hcf]

/-- C7: every failing `connect()` — handle-acquisition failure, sizing
failure or mapping failure, on either platform path — is reported the same
way: the call returns `false` and the member state is left Disconnected.
(The embedding of `connect` is a total function into `ConnectResult`, so no
exception escapes: every failure is signalled purely through the returned
boolean.) -/
theorem c7_failures_reported_uniformly (szP szW : Nat) (os : OsOutcome)
    (wos : WinOutcome) (mP mW : Model) (wP wW : World)
    (hP : (connectPosix szP os mP wP).ret = false)
    (hW : (connectWin szW wos mW wW).ret = false) :
    (connectPosix szP os mP wP).model.m_is_connected = false ∧
    (connectWin szW wos mW wW).model.m_is_connected = false := by
  rw [connectPosix_connected_eq_ret, connectWin_connected_eq_ret]
  exact ⟨hP, hW⟩

theorem c7_failures_reported_uniformly_witness :
    (connectPosix 4 osOpenFail mDis wEmpty).model.m_is_connected = false ∧
    (connectWin 4 winCreateFail mDis wEmpty).model.m_is_connected = false :=
  c7_failures_reported_uniformly 4 4 osOpenFail winCreateFail mDis mDis
    wEmpty wEmpty (by decide) (by decide)

/-- C5: starting from a freshly constructed instance in an arbitrary OS
state, after every sequence of operations (connect on either platform path
with any OS outcomes, disconnect, read, write) the stored mapped region is
valid if and only if the connection state is Connected. -/
theorem c5_valid_iff_connected (name : String) (lw : Bool) (w0 : World)
    (ops : List Op) :
    (runOps ops (mkModel name lw, w0)).1.m_is_connected = true ↔
      validMapping (runOps ops (mkModel name lw, w0)).1
        (runOps ops (mkModel name lw, w0)).2 :=
  connInv_runOps ops (mkModel name lw, w0)
    (by simp [connInv, mkModel, validMapping])

/-- C9: destruction always invokes `disconnect()` unconditionally; for a
connected instance this forces the state to Disconnected, removes the
process mapping the stored pointer referred to, and closes the OS handle —
no mapping or descriptor of the instance survives its destruction. -/
theorem c9_destructor_releases (sz : Nat) (m : Model) (w : World) (p : Nat)
    (hc : m.m_is_connected = true) (hp : m.data = some p) :
    destructor sz m w = disconnect sz m w ∧
    (destructor sz m w).model.m_is_connected = false ∧
    alookup (destructor sz m w).world.mappings p = none ∧
    alookup (destructor sz m w).world.openFds m.m_file_mapping_handle = none ∧
    (destructor sz m w).events =
      [Event.munmapEv p sz, Event.closeEv m.m_file_mapping_handle] := by
  refine ⟨rfl, ?_, ?_, ?_, ?_⟩ <;>
    simp [destructor, disconnect, hc, hp, alookup_aerase]

theorem c9_destructor_releases_witness :
    destructor 4 mCon wCon = disconnect 4 mCon wCon ∧
    (destructor 4 mCon wCon).model.m_is_connected = false ∧
    alookup (destructor 4 mCon wCon).world.mappings 100 = none ∧
    alookup (destructor 4 mCon wCon).world.openFds 3 = none ∧
    (destructor 4 mCon wCon).events =
      [Event.munmapEv 100 4, Event.closeEv 3] :=
  c9_destructor_releases 4 mCon wCon 100 rfl rfl

/-- C4 (counterexample): on the concrete connected instance `mCon`,
`disconnect()` unmaps, closes, sets the state to Disconnected and returns
`true` — but the stored mapping pointer member `data` still holds the old
pointer value 100 afterwards: the disconnect path never assigns to `data`,
so the claim that it "clears the stored mapping pointer" is false. -/
theorem c4_pointer_not_cleared :
    mCon.m_is_connected = true ∧
    (disconnect 4 mCon wCon).ret = true ∧
    (disconnect 4 mCon wCon).model.m_is_connected = false ∧
    (disconnect 4 mCon wCon).model.data = some 100 ∧
    ¬ (disconnect 4 mCon wCon).model.data = none := by
  decide

/-- C4 (amended): for every instance in the Connected state, `disconnect()`
unmaps the region, closes the OS handle, sets the state to Disconnected and
returns `true`; the stored mapping pointer member is left unchanged
(dangling) rather than cleared. -/
theorem c4_disconnect_connected (sz : Nat) (m : Model) (w : World) (p : Nat)
    (hc : m.m_is_connected = true) (hp : m.data = some p) :
    disconnect sz m w =
      ⟨{ m with m_is_connected := false },
       { w with
           mappings := aerase w.mappings p,
           openFds := aerase w.openFds m.m_file_mapping_handle },
       true,
       [Event.munmapEv p sz, Event.closeEv m.m_file_mapping_handle]⟩ := by
  simp [disconnect, hc, hp]

theorem c4_disconnect_connected_witness :
    disconnect 4 mCon wCon =
      ⟨{ mCon with m_is_connected := false },
       { wCon with
           mappings := aerase wCon.mappings 100,
           openFds := aerase wCon.openFds 3 },
       true,
       [Event.munmapEv 100 4, Event.closeEv 3]⟩ :=
  c4_disconnect_connected 4 mCon wCon 100 rfl rfl

/-- C3 (divergence on the POSIX path): starting disconnected, when
`shm_open` succeeds — acquiring descriptor 3 — and `mmap` then fails,
`connect()` returns `false` and leaves the state Disconnected, but it never
calls `close`: descriptor 3 is still open afterwards and no close event is
in the trace, even though the in-code comment on this branch reads "Close
the file handle, and return failure."  The Windows branch does close the
handle in the analogous case (last conjunct). -/
theorem c3_posix_mmap_failure_leaks_fd :
    (connectPosix 4 osMmapFail mDis wEmpty).ret = false ∧
    (connectPosix 4 osMmapFail mDis wEmpty).model.m_is_connected = false ∧
    alookup (connectPosix 4 osMmapFail mDis wEmpty).world.openFds 3 =
      some "counter" ∧
    Event.closeEv 3 ∉ (connectPosix 4 osMmapFail mDis wEmpty).events ∧
    Event.closeEv 3 ∈ (connectWin 4 winMapFail mDis wEmpty).events ∧
    alookup (connectWin 4 winMapFail mDis wEmpty).world.openFds 3 = none := by
  decide

/-- C10: on the POSIX path, starting disconnected with `shm_open`
succeeding, when `fstat` fails the sizing step is silently skipped — the
trace goes straight from the fstat to the mmap event, with no ftruncate
event — and `connect` proceeds to map the segment anyway: its result is
exactly the mmap outcome, not a sizing failure. -/
theorem c10_fstat_failure_skips_sizing (sz : Nat) (os : OsOutcome) (m : Model)
    (w : World) (h1 : m.m_is_connected = false) (h2 : os.shmOpenOk = true)
    (h3 : os.fstatOk = false) :
    (connectPosix sz os m w).events =
      [Event.shmOpenEv m.m_name true,
       Event.fstatEv false (observedSize w m.m_name),
       Event.mmapEv sz os.mmapOk] ∧
    (connectPosix sz os m w).ret = os.mmapOk := by
  cases hmo : os.mmapOk <;>
    simp [connectPosix, mmapStep, h1, h2, h3, hmo]

theorem c10_fstat_failure_skips_sizing_witness :
    (connectPosix 4 osFstatFail mDis wEmpty).events =
      [Event.shmOpenEv "counter" true, Event.fstatEv false 0,
       Event.mmapEv 4 true] ∧
    (connectPosix 4 osFstatFail mDis wEmpty).ret = true :=
  c10_fstat_failure_skips_sizing 4 osFstatFail mDis wEmpty rfl rfl rfl

/-- C8: during a POSIX `connect()` from the Disconnected state whose
`shm_open` succeeds: if `fstat` observes a zero-length backing object and
`ftruncate` succeeds, the object is sized to exactly `sizeof(T)` before the
mapping step — the ftruncate event precedes the mmap event in the trace and
the object then holds exactly `sizeof(T)` (zero) bytes; if the object
already has nonzero size, the sizing step is skipped — no ftruncate event —
and the object's contents are untouched. -/
theorem c8_first_creation_sizing (sz : Nat) (os : OsOutcome) (m : Model)
    (w : World) (h1 : m.m_is_connected = false) (h2 : os.shmOpenOk = true) :
    (os.fstatOk = true → observedSize w m.m_name = 0 → os.ftruncateOk = true →
      (connectPosix sz os m w).events =
        [Event.shmOpenEv m.m_name true, Event.fstatEv true 0,
         Event.ftruncateEv sz true, Event.mmapEv sz os.mmapOk] ∧
      alookup (connectPosix sz os m w).world.segments m.m_name =
        some (List.replicate sz 0)) ∧
    (observedSize w m.m_name ≠ 0 →
      (connectPosix sz os m w).events =
        [Event.shmOpenEv m.m_name true,
         Event.fstatEv os.fstatOk (observedSize w m.m_name),
         Event.mmapEv sz os.mmapOk] ∧
      alookup (connectPosix sz os m w).world.segments m.m_name =
        alookup w.segments m.m_name) := by
  constructor
  · intro hf hobs ht
    have hget : (alookup (segsAfterOpen w m.m_name) m.m_name).getD [] = [] := by
      have hlen := hobs
      unfold observedSize at hlen
      exact List.length_eq_zero.mp hlen
    cases hmo : os.mmapOk <;>
      simp [connectPosix, mmapStep, h1, h2, hf, hobs, ht, hmo, hget,
        truncBytes, alookup_astore_self]
  · intro hobs
    have hsome : ∃ bs, alookup w.segments m.m_name = some bs := by
      cases hl : alookup w.segments m.m_name with
      | some bs => exact ⟨bs, rfl⟩
      | none =>
        exfalso
        apply hobs
        unfold observedSize segsAfterOpen
        rw [hl]
        simp [alookup_astore_self]
    obtain ⟨bs, hbs⟩ := hsome
    have hseg : segsAfterOpen w m.m_name = w.segments := by
      unfold segsAfterOpen; rw [hbs]
    cases hfo : os.fstatOk <;> cases hmo : os.mmapOk <;>
      simp [connectPosix, mmapStep, h1, h2, hobs, hfo, hmo, hseg]

theorem c8_first_creation_sizing_witness :
    (connectPosix 4 osAllOk mDis wEmpty).events =
      [Event.shmOpenEv "counter" true, Event.fstatEv true 0,
       Event.ftruncateEv 4 true, Event.mmapEv 4 true] ∧
    alookup (connectPosix 4 osAllOk mDis wEmpty).world.segments "counter" =
      some (List.replicate 4 0) :=
  (c8_first_creation_sizing 4 osAllOk mDis wEmpty rfl rfl).1 rfl (by decide) rfl

/-- C1: two instances bound to the same segment name and the same
trivially-copyable type `T` (layout `t`), both connected.  After instance A
writes a well-typed value `v` of `T`, instance B's `get_data()` snapshot,
read back as `T`, is exactly `v` — equal as a whole structure tree, hence
field by field, nested struct members included. -/
theorem c1_round_trip (t : CTy) (v : CVal) (mA mB : Model) (w : World)
    (name : String) (pA pB : Nat) (bs : List Nat)
    (_hAc : mA.m_is_connected = true) (hA : mA.data = some pA)
    (hAm : alookup w.mappings pA = some name)
    (_hBc : mB.m_is_connected = true) (hB : mB.data = some pB)
    (hBm : alookup w.mappings pB = some name)
    (hseg : alookup w.segments name = some bs)
    (hv : wellTyped t v = true) :
    ((get_data (sizeOfTy t) mB
        (write_data (sizeOfTy t) mA w (encodeVal v))).bind
      (fun snap => (decodeVal t snap).map Prod.fst)) = some v := by
  have hlen : (encodeVal v).length = sizeOfTy t := encodeVal_length t v hv
  have htake : (encodeVal v).take (sizeOfTy t) = encodeVal v := by
    rw [← hlen]; exact List.take_length _
  have hw : write_data (sizeOfTy t) mA w (encodeVal v) =
      { w with segments :=
          astore w.segments name (encodeVal v ++ bs.drop (sizeOfTy t)) } := by
    simp [write_data, hA, hAm, hseg, htake]
  rw [hw]
  have htake2 : (encodeVal v ++ bs.drop (sizeOfTy t)).take (sizeOfTy t) =
      encodeVal v := List.take_left' hlen
  have hdec : decodeVal t (encodeVal v) = some (v, []) := by
    have h0 := decodeVal_encodeVal t v [] hv
    rwa [List.append_nil] at h0
  simp [get_data, hB, hBm, alookup_astore_self, htake2, hdec]

/-- The layout of the gtest struct `{int32, float64, {int32, float64}}`
(`test_struct_t` of the test suite), 24 bytes. -/
def tNested : CTy :=
  CTy.prodTy (CTy.scalarTy 4)
    (CTy.prodTy (CTy.scalarTy 8)
      (CTy.prodTy (CTy.scalarTy 4) (CTy.scalarTy 8)))

/-- The test value `{42, 42.42, {42, 42.42}}`: 42.42 as an IEEE-754 double
has bit pattern 4631166901565532406. -/
def vNested : CVal :=
  CVal.prodV (CVal.scalar 4 42)
    (CVal.prodV (CVal.scalar 8 4631166901565532406)
      (CVal.prodV (CVal.scalar 4 42) (CVal.scalar 8 4631166901565532406)))

/-- Writer instance of the round-trip scenario. -/
def mWriter : Model :=
  { m_name := "test_test_struct_t",
    m_is_connected := true,
    m_log_warnings := false,
    data := some 100,
    m_file_mapping_handle := 3 }

/-- Reader instance of the round-trip scenario. -/
def mReader : Model :=
  { m_name := "test_test_struct_t",
    m_is_connected := true,
    m_log_warnings := false,
    data := some 101,
    m_file_mapping_handle := 4 }

/-- OS state with both instances mapped to the shared 24-byte object. -/
def wShared : World :=
  { segments := [("test_test_struct_t", List.replicate 24 0)],
    openFds := [(3, "test_test_struct_t"), (4, "test_test_struct_t")],
    mappings := [(100, "test_test_struct_t"), (101, "test_test_struct_t")],
    nextFd := 5,
    nextPtr := 102 }

theorem c1_round_trip_witness :
    ((get_data (sizeOfTy tNested) mReader
        (write_data (sizeOfTy tNested) mWriter wShared (encodeVal vNested))).bind
      (fun snap => (decodeVal tNested snap).map Prod.fst)) = some vNested :=
  c1_round_trip tNested vNested mWriter mReader wShared "test_test_struct_t"
    100 101 (List.replicate 24 0) rfl rfl (by decide) rfl rfl (by decide)
    (by decide) (by decide)
